import Mathlib

/-!
Verification of the cursor-sync core (VSCode extension + JetBrains plugin).

The development shallowly embeds the synchronization logic of the two
plugins:

* `VSCode.*` traces `vscode-plugin/src/extension.ts` (class
  `CursorSyncManager` and the selection-change handler registered in
  `registerExtensionFeatures`).
* `JetBrains.*` traces
  `jetbrains-plugin/src/main/kotlin/.../JetbrainsPlugin.kt` (class
  `CursorSyncPlugin`).

Machine numbers: TypeScript numbers and Kotlin `Long`/`Int` values used
here (lines, characters, millisecond timestamps) stay far below 2^53 /
2^63 in every scenario considered, so they are modelled as `Int` (for
quantities whose differences may be negative, such as timestamps) or
`Nat` (for the reconnect-attempt counter).  The one floating-point
computation, `2.0.pow(min(attempt, 5)).toLong()` in
`calculateReconnectDelay`, only ever raises 2.0 to an exponent ≤ 5, for
which `Float` arithmetic is exact, so it is modelled as `2 ^ min attempt 5`
over `Nat`.
-/

/-- Wire/value record for a cursor location, shared by both plugins
(`interface CursorPosition` in extension.ts, `data class CursorPosition`
in JetbrainsPlugin.kt).  `source` is the free-form origin label
("vscode" or "jetbrains" on the wire). -/
structure CursorPosition where
  file : String
  line : Int
  character : Int
  source : String
  timestamp : Int
deriving Repr, DecidableEq

namespace VSCode

/-- Mirrors `private readonly positionThreshold = 250` (ms) in
`CursorSyncManager`. -/
def positionThreshold : Int := 250

/-- State of a `CursorSyncManager` instance (extension.ts).  Booleans
stand for the nullability of the WebSocket handles; `cursorClearAt`
models the pending `setTimeout` scheduled by `updateEditorCursor`
(absolute firing time in ms), `none` when no clear timer is pending. -/
structure ManagerState where
  wsConnection : Bool
  wsServer : Bool
  lastSentPosition : Option CursorPosition
  lastReceivedPosition : Option CursorPosition
  isUpdatingCursor : Bool
  cursorClearAt : Option Int
deriving Repr, DecidableEq

/-- The fields of a fresh `CursorSyncManager` (field initializers of the
class: both sockets null, both remembered positions null, flag false). -/
def initialState : ManagerState :=
  { wsConnection := false
    wsServer := false
    lastSentPosition := none
    lastReceivedPosition := none
    isUpdatingCursor := false
    cursorClearAt := none }

/-- Traces `shouldIgnorePosition` (extension.ts lines 173–186): with no
`lastReceivedPosition` nothing is ignored; otherwise ignore exactly when
the coordinates coincide and the timestamp difference is below the
threshold. -/
def shouldIgnorePosition (s : ManagerState) (newPosition : CursorPosition) : Bool :=
  match s.lastReceivedPosition with
  | none => false
  | some last =>
    let isSamePosition :=
      last.line == newPosition.line &&
      last.character == newPosition.character &&
      last.file == newPosition.file
    let isWithinThreshold :=
      decide (newPosition.timestamp - last.timestamp < positionThreshold)
    isSamePosition && isWithinThreshold

/-- Traces `shouldSendPosition` (extension.ts lines 312–320): send when
there is no `lastSentPosition` or any of the three coordinates differs.
Timestamps and sources play no role. -/
def shouldSendPosition (s : ManagerState) (cursorData : CursorPosition) : Bool :=
  match s.lastSentPosition with
  | none => true
  | some last =>
    !(last.line == cursorData.line &&
      last.character == cursorData.character &&
      last.file == cursorData.file)

/-- Traces `isSourceFile` (extension.ts lines 267–273): output channels,
debug consoles and extension pseudo-files are not syncable. -/
def isSourceFile (file : String) : Bool :=
  !(decide (("extension-output-".toList) <:+: file.toList) ||
    decide (("debug-console".toList) <:+: file.toList) ||
    "output:".isPrefixOf file ||
    "extension:".isPrefixOf file)

/-- Traces `updateEditorCursor` (extension.ts lines 239–265) at the state
level: the guard `isUpdatingCursor` is set before the programmatic caret
move, and the `finally` block schedules `isUpdatingCursor = false` via
`setTimeout(..., 100)` once the move completes; `tMoveDone` is the wall
clock at that completion. -/
def updateEditorCursor (s : ManagerState) (tMoveDone : Int) : ManagerState :=
  { s with isUpdatingCursor := true, cursorClearAt := some (tMoveDone + 100) }

/-- Traces `handleCursorUpdate` (extension.ts lines 188–213) together with
`getOrOpenEditor`: drop non-peer sources, drop duplicates inside the
threshold, otherwise record `lastReceivedPosition` FIRST and only then
try to open the document (`openOk` — success of `getOrOpenEditor`) and
move the caret (`moveOk` — the `try` body of `updateEditorCursor`; on a
throw the `catch` of `handleCursorUpdate` resets the flag while the
`finally` has already scheduled the timer).  Returns the new state and
the caret move actually applied to the host, if any. -/
def handleCursorUpdate (openOk moveOk : Bool) (tMoveDone : Int)
    (s : ManagerState) (cursorData : CursorPosition) :
    ManagerState × Option CursorPosition :=
  if cursorData.source != "jetbrains" then (s, none)
  else if shouldIgnorePosition s cursorData then (s, none)
  else
    let s1 := { s with lastReceivedPosition := some cursorData }
    if !openOk then (s1, none)
    else if moveOk then (updateEditorCursor s1 tMoveDone, some cursorData)
    else ({ updateEditorCursor s1 tMoveDone with isUpdatingCursor := false }, none)

/-- Traces `sendCursorPosition` (extension.ts lines 275–310): the guard
check comes first, then the connection check, then the source-file
check; then the candidate is built (`source := "vscode"`, timestamp
`now`) and submitted to `shouldSendPosition`; on acceptance
`lastSentPosition` is overwritten and the JSON is sent.  Returns the new
state and the message sent, if any. -/
def sendCursorPosition (s : ManagerState) (line character : Int)
    (file : String) (now : Int) : ManagerState × Option CursorPosition :=
  if s.isUpdatingCursor then (s, none)
  else if !s.wsConnection then (s, none)
  else if !isSourceFile file then (s, none)
  else
    let cursorData : CursorPosition :=
      { file := file, line := line, character := character
        source := "vscode", timestamp := now }
    if shouldSendPosition s cursorData then
      ({ s with lastSentPosition := some cursorData }, some cursorData)
    else (s, none)

/-- Traces `handleConnection` (extension.ts lines 136–159) at the state
level: an inbound peer socket becomes the tracked connection
(last-connected-wins). -/
def handleConnection (s : ManagerState) : ManagerState :=
  { s with wsConnection := true }

/-- Traces the socket `close` handler inside `handleConnection`
(extension.ts lines 145–150): the tracked connection is dropped.  The
VSCode side is the server; it never schedules any reconnect. -/
def socketClosed (s : ManagerState) : ManagerState :=
  { s with wsConnection := false }

/-- Traces `connect` (extension.ts lines 343–350): no-op when the server
is already up, otherwise create the listening server. -/
def connect (s : ManagerState) : ManagerState :=
  if s.wsServer then s else { s with wsServer := true }

/-- Traces `disconnect` (extension.ts lines 352–367): no-op when already
down; otherwise close the tracked connection and the server. -/
def disconnect (s : ManagerState) : ManagerState :=
  if !s.wsServer then s
  else { s with wsConnection := false, wsServer := false }

/-- Traces `restartWebSocket` (extension.ts lines 332–341): close the
tracked connection, then close and recreate the server. -/
def restartWebSocket (s : ManagerState) : ManagerState :=
  { s with wsConnection := false, wsServer := true }

/-- The `setTimeout` callback scheduled by `updateEditorCursor` fires at
its scheduled time and clears the guard. -/
def cursorClearTimerFires (s : ManagerState) (t : Int) : ManagerState :=
  if s.cursorClearAt == some t then
    { s with isUpdatingCursor := false, cursorClearAt := none }
  else s

/-- The discrete inputs the `CursorSyncManager` reacts to: the
selection-change handler of `registerExtensionFeatures` (which forwards
to `sendCursorPosition` only when the window is focused), an inbound
wire message, the three registered commands, server-socket events, and
the guard-clear timer. -/
inductive Event
  | selection (focused : Bool) (line character : Int) (file : String) (now : Int)
  | incoming (openOk moveOk : Bool) (tMoveDone : Int) (m : CursorPosition)
  | connectCmd
  | disconnectCmd
  | restartCmd
  | peerConnected
  | peerClosed
  | clearTimer (t : Int)

/-- One dispatch of the VSCode manager on one event. -/
def stepEvent (s : ManagerState) : Event → ManagerState
  | .selection focused line character file now =>
      if focused then (sendCursorPosition s line character file now).1 else s
  | .incoming openOk moveOk tMoveDone m =>
      (handleCursorUpdate openOk moveOk tMoveDone s m).1
  | .connectCmd => connect s
  | .disconnectCmd => disconnect s
  | .restartCmd => restartWebSocket s
  | .peerConnected => handleConnection s
  | .peerClosed => socketClosed s
  | .clearTimer t => cursorClearTimerFires s t

end VSCode

namespace JetBrains

/-- Mirrors `POSITION_THRESHOLD_MS = 250L` (JetbrainsPlugin.kt line 26). -/
def POSITION_THRESHOLD_MS : Int := 250

/-- Mirrors `BASE_RECONNECT_DELAY_MS = 1000L` (line 27). -/
def BASE_RECONNECT_DELAY_MS : Nat := 1000

/-- Mirrors `MAX_RECONNECT_DELAY_MS = 30000L` (line 28). -/
def MAX_RECONNECT_DELAY_MS : Nat := 30000

/-- Mirrors `MAX_RECONNECT_ATTEMPTS = 5` (line 29).  In
JetbrainsPlugin.kt this constant is used only inside
`calculateReconnectDelay`; nothing ever compares the attempt counter
against it to stop retrying. -/
def MAX_RECONNECT_ATTEMPTS : Nat := 5

/-- State of a `CursorSyncPlugin` instance (JetbrainsPlugin.kt lines
41–48).  `reconnectJob` models the pending `Timer` with the delay it was
scheduled with; `wsOpen` models `wsClient.isOpen`. -/
structure PluginState where
  lastPosition : Option CursorPosition
  lastReceivedPosition : Option CursorPosition
  reconnectAttempt : Nat
  reconnectJob : Option Nat
  wsOpen : Bool
deriving Repr, DecidableEq

/-- Field initializers of `CursorSyncPlugin`: both remembered positions
null, attempt counter 0, no pending reconnect timer, socket not open. -/
def initialState : PluginState :=
  { lastPosition := none
    lastReceivedPosition := none
    reconnectAttempt := 0
    reconnectJob := none
    wsOpen := false }

/-- Traces `calculateReconnectDelay` (lines 101–105):
`BASE * 2^min(attempt, MAX_RECONNECT_ATTEMPTS)`, capped at
`MAX_RECONNECT_DELAY_MS`.  The `Float` power is exact for exponents ≤ 5. -/
def calculateReconnectDelay (reconnectAttempt : Nat) : Nat :=
  let exponentialDelay :=
    BASE_RECONNECT_DELAY_MS * 2 ^ min reconnectAttempt MAX_RECONNECT_ATTEMPTS
  min exponentialDelay MAX_RECONNECT_DELAY_MS

/-- Traces `scheduleReconnect` (lines 84–99): cancel any pending timer
and schedule exactly one new task after `calculateReconnectDelay` of the
current attempt counter. -/
def scheduleReconnect (s : PluginState) : PluginState :=
  { s with reconnectJob := some (calculateReconnectDelay s.reconnectAttempt) }

/-- Traces `resetReconnectAttempts` (lines 107–111). -/
def resetReconnectAttempts (s : PluginState) : PluginState :=
  { s with reconnectAttempt := 0, reconnectJob := none }

/-- Traces `handleWebSocketOpen` (lines 135–139): the socket is now open
and the attempt counter and timer are reset.  Note it touches neither
`lastPosition` nor `lastReceivedPosition`. -/
def handleWebSocketOpen (s : PluginState) : PluginState :=
  resetReconnectAttempts { s with wsOpen := true }

/-- Traces `handleWebSocketClose` (lines 171–175): every close — the
local side never requests one in JetbrainsPlugin.kt — schedules a
reconnect. -/
def handleWebSocketClose (s : PluginState) : PluginState :=
  scheduleReconnect { s with wsOpen := false }

/-- The pending reconnect `TimerTask` fires (lines 90–97): it is
consumed, and if the socket is still not open the attempt counter is
incremented and `connectWebSocket` is called (whose outcome arrives
later as an open or close event). -/
def reconnectTimerFires (s : PluginState) : PluginState :=
  match s.reconnectJob with
  | none => s
  | some _ =>
    if !s.wsOpen then
      { s with reconnectJob := none, reconnectAttempt := s.reconnectAttempt + 1 }
    else { s with reconnectJob := none }

/-- Traces `isPositionDuplicate` (lines 162–169): with no
`lastReceivedPosition` nothing is a duplicate; otherwise a duplicate is
an exact coordinate match whose timestamp difference is below the
threshold. -/
def isPositionDuplicate (s : PluginState) (position : CursorPosition) : Bool :=
  match s.lastReceivedPosition with
  | none => false
  | some lastPos =>
    lastPos.line == position.line &&
    lastPos.character == position.character &&
    lastPos.file == position.file &&
    decide (position.timestamp - lastPos.timestamp < POSITION_THRESHOLD_MS)

/-- Traces `shouldUpdatePosition` (lines 248–254): send when there is no
`lastPosition` or any coordinate differs. -/
def shouldUpdatePosition (s : PluginState) (position : CursorPosition) : Bool :=
  match s.lastPosition with
  | none => true
  | some last =>
    last.line != position.line ||
    last.character != position.character ||
    last.file != position.file

/-- Traces `parseAndHandlePosition` (lines 146–160) on a successfully
parsed message: only a non-duplicate "vscode"-sourced position is acted
on; `lastReceivedPosition` is assigned BEFORE `updateCursorPosition`
runs.  `hostOk` is the success of `getVirtualFile`/`openFile`/
`moveToLogicalPosition` (lines 277–310); on failure the error is logged
and nothing else happens.  Returns the new state and the caret move
applied to the host, if any. -/
def parseAndHandlePosition (hostOk : Bool) (s : PluginState)
    (position : CursorPosition) : PluginState × Option CursorPosition :=
  if position.source == "vscode" && !isPositionDuplicate s position then
    let s1 := { s with lastReceivedPosition := some position }
    if hostOk then (s1, some position) else (s1, none)
  else (s, none)

/-- Traces `createCaretListener`/`handleCaretPositionChange` (lines
223–246): an unfocused window drops the event; otherwise the candidate
is built with `source = "jetbrains"` and the current wall clock, and on
acceptance by `shouldUpdatePosition` it overwrites `lastPosition` and is
sent.  Returns the new state and the message sent, if any. -/
def caretPositionChanged (focused : Bool) (s : PluginState)
    (file : String) (line character : Int) (now : Int) :
    PluginState × Option CursorPosition :=
  if !focused then (s, none)
  else
    let position : CursorPosition :=
      { file := file, line := line, character := character
        source := "jetbrains", timestamp := now }
    if shouldUpdatePosition s position then
      ({ s with lastPosition := some position }, some position)
    else (s, none)

/-- Composition present in JetbrainsPlugin.kt: an accepted remote
message is applied through `moveToLogicalPosition` (line 302), which
fires the editor's `CaretListener` — the very listener the plugin
installed.  JetbrainsPlugin.kt sets no "programmatic update in
progress" flag anywhere, so that echo event runs the ordinary outbound
path.  Returns (final state, host move applied, outbound echo sent). -/
def applyRemoteWithEcho (focused hostOk : Bool) (echoNow : Int)
    (s : PluginState) (m : CursorPosition) :
    PluginState × Option CursorPosition × Option CursorPosition :=
  let res := parseAndHandlePosition hostOk s m
  match res.2 with
  | none => (res.1, none, none)
  | some p =>
    let echo := caretPositionChanged focused res.1 p.file p.line p.character echoNow
    (echo.1, some p, echo.2)

/-- The discrete inputs the JetBrains plugin reacts to: caret events
(the focus gate is inside the listener), inbound wire messages, socket
open/close callbacks, and the reconnect timer. -/
inductive Event
  | caretMoved (focused : Bool) (file : String) (line character : Int) (now : Int)
  | message (hostOk : Bool) (m : CursorPosition)
  | socketOpened
  | socketClosed
  | reconnectTimer

/-- One dispatch of the JetBrains plugin on one event. -/
def stepEvent (s : PluginState) : Event → PluginState
  | .caretMoved focused file line character now =>
      (caretPositionChanged focused s file line character now).1
  | .message hostOk m => (parseAndHandlePosition hostOk s m).1
  | .socketOpened => handleWebSocketOpen s
  | .socketClosed => handleWebSocketClose s
  | .reconnectTimer => reconnectTimerFires s

/-- Outcome of `Gson().fromJson` inside `parseAndHandlePosition` (lines
146–160): either the parser throws (caught and logged) or it yields a
position. -/
inductive ParsedMessage
  | malformed
  | ok (p : CursorPosition)

/-- Traces `handleWebSocketMessage` (lines 141–144) together with the
`try`/`catch` of `parseAndHandlePosition`: a message the parser throws
on is logged and dropped; anything else is handled. -/
def handleWebSocketMessage (hostOk : Bool) (s : PluginState) :
    ParsedMessage → PluginState × Option CursorPosition
  | .malformed => (s, none)
  | .ok p => parseAndHandlePosition hostOk s p

/-- One failed reconnect cycle of JetbrainsPlugin.kt, starting from a
state whose reconnect timer is pending: the timer fires (attempt
incremented, `connectWebSocket` called), the connect attempt fails, and
the resulting close callback schedules the next timer. -/
def failedCycle (s : PluginState) : PluginState :=
  handleWebSocketClose (reconnectTimerFires s)

end JetBrains

namespace VSCode

/-- Result of `JSON.parse(message.toString())` in
`handleIncomingMessage` (extension.ts lines 161–171) when it does not
throw: a JavaScript object whose fields may each be `undefined`.
`JSON.parse` performs no schema check, so missing required fields do NOT
raise; they surface as `undefined` (here `none`). -/
structure RawCursorData where
  file : Option String
  line : Option Int
  character : Option Int
  source : Option String
  timestamp : Option Int
deriving Repr, DecidableEq

/-- An inbound frame as seen by `handleIncomingMessage`: either
`JSON.parse` throws (caught: log and drop) or it yields an object. -/
inductive RawMessage
  | invalid
  | parsed (d : RawCursorData)

/-- The slice of manager state the inbound path can touch, for the
missing-field analysis. -/
structure RawInboundState where
  lastReceivedPosition : Option RawCursorData
  wsConnection : Bool
  wsServer : Bool
deriving Repr, DecidableEq

/-- JavaScript semantics of `a - b < 250` on possibly-`undefined`
numbers: any `undefined` operand makes the subtraction `NaN`, and every
comparison with `NaN` is false. -/
def jsDiffBelowThreshold (a b : Option Int) : Bool :=
  match a, b with
  | some x, some y => decide (x - y < positionThreshold)
  | _, _ => false

/-- Traces `shouldIgnorePosition` on raw parsed objects.  JavaScript
strict equality `===` on two field accesses is `true` when both are
`undefined`, componentwise equality otherwise — exactly `Option`
equality. -/
def shouldIgnorePositionRaw (st : RawInboundState) (d : RawCursorData) : Bool :=
  match st.lastReceivedPosition with
  | none => false
  | some last =>
    let isSamePosition :=
      last.line == d.line && last.character == d.character && last.file == d.file
    let isWithinThreshold := jsDiffBelowThreshold d.timestamp last.timestamp
    isSamePosition && isWithinThreshold

/-- Traces `handleIncomingMessage` + `handleCursorUpdate` +
`getOrOpenEditor` on raw frames.  `cursorData.source !== "jetbrains"`
is `true` whenever `source` is `undefined` or any other string.
`lastReceivedPosition = cursorData` runs before the editor is opened;
`openTextDocument(undefined)` rejects, so a missing `file` always takes
the failure path (caught and logged).  No branch throws out of the
handler, so the engine never crashes, and nothing here touches the
sockets. -/
def handleIncomingMessageRaw (openOk : String → Bool) (st : RawInboundState) :
    RawMessage → RawInboundState × Option RawCursorData
  | .invalid => (st, none)
  | .parsed d =>
    if d.source != some "jetbrains" then (st, none)
    else if shouldIgnorePositionRaw st d then (st, none)
    else
      let st1 := { st with lastReceivedPosition := some d }
      match d.file with
      | none => (st1, none)
      | some f => if openOk f then (st1, some d) else (st1, none)

end VSCode

namespace Lifecycle

/-- Modelled from the spec: the connection-lifecycle states of §3/§4.3,
`{Idle, Connecting(attempt), Open, Closed}`.  The attempt counter lives
in `State.attempt` below, so `Connecting(n)` is `phase = .Connecting`
with `attempt = n`. -/
inductive Phase
  | Idle
  | Connecting
  | Open
  | Closed
deriving Repr, DecidableEq

/-- Modelled from the spec: the connecting side's manual-disconnect
lifecycle is not under src/ — JetbrainsPlugin.kt has no `disconnect()`
and src/unnamed/part_001 only declares the `isManuallyDisconnect` flag
of `CursorSyncWebSocketClient` without its uses.  Following §4.3 and
§5 ("Cancellation"), the state carries the phase, the attempt counter,
the pending backoff timer (with its delay) and the manual-close flag. -/
structure State where
  phase : Phase
  attempt : Nat
  pendingReconnect : Option Nat
  isManuallyDisconnect : Bool
deriving Repr, DecidableEq

/-- Modelled from the spec: the inputs of the §4.3 state machine — an
explicit connect request, transport success, transport failure/drop,
the backoff timer firing, and an explicit disconnect request. -/
inductive Event
  | connectRequest
  | transportOpened
  | transportClosed
  | reconnectTimer
  | disconnectRequest
deriving Repr, DecidableEq

/-- Modelled from the spec: §4.3 "Any state → Idle: explicit disconnect
request; cancels pending reconnect and tears down the transport" and §5
"disconnect() must cancel any pending reconnect timer and close the
active transport without invoking the unexpected-drop reconnect path",
with part_001's `isManuallyDisconnect` flag recording the manual
close. -/
def disconnect (l : State) : State :=
  { phase := .Idle
    attempt := l.attempt
    pendingReconnect := none
    isManuallyDisconnect := true }

/-- Modelled from the spec: the transition function of §4.3.  A
transport close with the manual flag set does not schedule a reconnect
(manual close is distinguished from failure close); an unexpected close
schedules one backoff timer; the timer fires only while not manually
disconnected and re-enters `Connecting` with the attempt incremented. -/
def step (l : State) : Event → State
  | .connectRequest =>
    match l.phase with
    | .Idle => { l with phase := .Connecting, attempt := 0, isManuallyDisconnect := false }
    | _ => l
  | .transportOpened =>
    match l.phase with
    | .Connecting => { l with phase := .Open, attempt := 0, pendingReconnect := none }
    | _ => l
  | .transportClosed =>
    if l.isManuallyDisconnect then l
    else
      match l.phase with
      | .Connecting =>
        { l with phase := .Closed
                 pendingReconnect := some (JetBrains.calculateReconnectDelay l.attempt) }
      | .Open =>
        { l with phase := .Closed
                 pendingReconnect := some (JetBrains.calculateReconnectDelay l.attempt) }
      | _ => l
  | .reconnectTimer =>
    match l.pendingReconnect with
    | none => l
    | some _ =>
      if l.isManuallyDisconnect then { l with pendingReconnect := none }
      else
        match l.phase with
        | .Closed => { l with phase := .Connecting, attempt := l.attempt + 1, pendingReconnect := none }
        | _ => { l with pendingReconnect := none }
  | .disconnectRequest => disconnect l

end Lifecycle

/-- C5: the reconnect delay for attempt n is min(1000 · 2^min(n,5), 30000)
milliseconds, so the delays for consecutive failures starting at attempt
0 are 1000, 2000, 4000, 8000, 16000, and then 30000 for every attempt
from the fifth on. -/
theorem C5_reconnect_delay_sequence :
    (∀ n : Nat, JetBrains.calculateReconnectDelay n = min (1000 * 2 ^ min n 5) 30000) ∧
    JetBrains.calculateReconnectDelay 0 = 1000 ∧
    JetBrains.calculateReconnectDelay 1 = 2000 ∧
    JetBrains.calculateReconnectDelay 2 = 4000 ∧
    JetBrains.calculateReconnectDelay 3 = 8000 ∧
    JetBrains.calculateReconnectDelay 4 = 16000 ∧
    (∀ n : Nat, 5 ≤ n → JetBrains.calculateReconnectDelay n = 30000) := by
  refine ⟨fun n => rfl, by decide, by decide, by decide, by decide, by decide,
    fun n hn => ?_⟩
  simp only [JetBrains.calculateReconnectDelay, JetBrains.BASE_RECONNECT_DELAY_MS,
    JetBrains.MAX_RECONNECT_DELAY_MS, JetBrains.MAX_RECONNECT_ATTEMPTS,
    Nat.min_eq_right hn]
  decide

/-- C5 witness: a capped attempt, evaluated concretely. -/
theorem C5_reconnect_delay_sequence_witness :
    JetBrains.calculateReconnectDelay 9 = 30000 :=
  C5_reconnect_delay_sequence.2.2.2.2.2.2 9 (by decide)

/-- C3: an inbound message whose source field does not mark it as
produced by the peer is discarded unprocessed on both sides: the state
(in particular the suppression window) is unchanged and no host action
is requested. -/
theorem C3_non_peer_origin_discarded :
    (∀ (openOk moveOk : Bool) (t : Int) (s : VSCode.ManagerState) (m : CursorPosition),
      m.source ≠ "jetbrains" →
      VSCode.handleCursorUpdate openOk moveOk t s m = (s, none)) ∧
    (∀ (hostOk : Bool) (s : JetBrains.PluginState) (m : CursorPosition),
      m.source ≠ "vscode" →
      JetBrains.parseAndHandlePosition hostOk s m = (s, none)) := by
  constructor
  · intro openOk moveOk t s m h
    unfold VSCode.handleCursorUpdate
    simp [bne_iff_ne, h]
  · intro hostOk s m h
    unfold JetBrains.parseAndHandlePosition
    simp [beq_iff_eq, h]

/-- C3 witness: a "vscode"-sourced message delivered back to the VSCode
side (an echo of its own message) is dropped with no state change. -/
theorem C3_non_peer_origin_discarded_witness :
    VSCode.handleCursorUpdate true true 0 VSCode.initialState
      { file := "a.ts", line := 1, character := 1, source := "vscode", timestamp := 5 } =
      (VSCode.initialState, none) ∧
    JetBrains.parseAndHandlePosition true JetBrains.initialState
      { file := "a.ts", line := 1, character := 1, source := "jetbrains", timestamp := 5 } =
      (JetBrains.initialState, none) :=
  ⟨C3_non_peer_origin_discarded.1 true true 0 VSCode.initialState _ (by decide),
   C3_non_peer_origin_discarded.2 true JetBrains.initialState _ (by decide)⟩

/-- Characterization of `shouldIgnorePosition`: it holds exactly for an
exact coordinate match with the remembered inbound position inside the
time window. -/
theorem shouldIgnorePosition_iff (s : VSCode.ManagerState) (m : CursorPosition) :
    VSCode.shouldIgnorePosition s m = true ↔
      ∃ last, s.lastReceivedPosition = some last ∧
        last.line = m.line ∧ last.character = m.character ∧ last.file = m.file ∧
        m.timestamp - last.timestamp < VSCode.positionThreshold := by
  cases h : s.lastReceivedPosition <;>
    simp [VSCode.shouldIgnorePosition, h, and_assoc]

/-- Characterization of `isPositionDuplicate`: it holds exactly for an
exact coordinate match with the remembered inbound position inside the
time window. -/
theorem isPositionDuplicate_iff (s : JetBrains.PluginState) (m : CursorPosition) :
    JetBrains.isPositionDuplicate s m = true ↔
      ∃ lastPos, s.lastReceivedPosition = some lastPos ∧
        lastPos.line = m.line ∧ lastPos.character = m.character ∧ lastPos.file = m.file ∧
        m.timestamp - lastPos.timestamp < JetBrains.POSITION_THRESHOLD_MS := by
  cases h : s.lastReceivedPosition <;>
    simp [JetBrains.isPositionDuplicate, h, and_assoc]

/-- A peer-sourced inbound message the window suppresses leaves the
VSCode manager untouched. -/
theorem handleCursorUpdate_ignored (openOk moveOk : Bool) (t : Int)
    (s : VSCode.ManagerState) (m : CursorPosition)
    (hsrc : m.source = "jetbrains") (hig : VSCode.shouldIgnorePosition s m = true) :
    VSCode.handleCursorUpdate openOk moveOk t s m = (s, none) := by
  unfold VSCode.handleCursorUpdate
  simp [hsrc, hig]

/-- A peer-sourced inbound message the window accepts, with the host
cooperating, records the candidate and applies it. -/
theorem handleCursorUpdate_accepted (t : Int)
    (s : VSCode.ManagerState) (m : CursorPosition)
    (hsrc : m.source = "jetbrains") (hig : VSCode.shouldIgnorePosition s m = false) :
    VSCode.handleCursorUpdate true true t s m =
      (VSCode.updateEditorCursor { s with lastReceivedPosition := some m } t, some m) := by
  unfold VSCode.handleCursorUpdate
  simp [hsrc, hig]

/-- With the remembered inbound position at the same coordinates, the
inbound filter reduces to the time-window test. -/
theorem shouldIgnorePosition_same_coords (s : VSCode.ManagerState) (m1 m2 : CursorPosition)
    (h : s.lastReceivedPosition = some m1)
    (hf : m2.file = m1.file) (hl : m2.line = m1.line) (hc : m2.character = m1.character) :
    VSCode.shouldIgnorePosition s m2 =
      decide (m2.timestamp - m1.timestamp < VSCode.positionThreshold) := by
  unfold VSCode.shouldIgnorePosition
  rw [h]
  simp [hf, hl, hc]

/-- A peer-sourced inbound message the window suppresses leaves the
JetBrains plugin untouched. -/
theorem parseAndHandlePosition_ignored (hostOk : Bool)
    (s : JetBrains.PluginState) (m : CursorPosition)
    (hsrc : m.source = "vscode") (hig : JetBrains.isPositionDuplicate s m = true) :
    JetBrains.parseAndHandlePosition hostOk s m = (s, none) := by
  unfold JetBrains.parseAndHandlePosition
  simp [hsrc, hig]

/-- A peer-sourced inbound message the window accepts, with the host
cooperating, records the candidate and applies it. -/
theorem parseAndHandlePosition_accepted
    (s : JetBrains.PluginState) (m : CursorPosition)
    (hsrc : m.source = "vscode") (hig : JetBrains.isPositionDuplicate s m = false) :
    JetBrains.parseAndHandlePosition true s m =
      ({ s with lastReceivedPosition := some m }, some m) := by
  unfold JetBrains.parseAndHandlePosition
  simp [hsrc, hig]

/-- With the remembered inbound position at the same coordinates, the
inbound filter reduces to the time-window test. -/
theorem isPositionDuplicate_same_coords (s : JetBrains.PluginState) (m1 m2 : CursorPosition)
    (h : s.lastReceivedPosition = some m1)
    (hf : m2.file = m1.file) (hl : m2.line = m1.line) (hc : m2.character = m1.character) :
    JetBrains.isPositionDuplicate s m2 =
      decide (m2.timestamp - m1.timestamp < JetBrains.POSITION_THRESHOLD_MS) := by
  unfold JetBrains.isPositionDuplicate
  rw [h]
  simp [hf, hl, hc]

/-- C1: inbound suppression is time-windowed exact-match on both sides —
a parsed peer-sourced inbound position is rejected iff the remembered
accepted position exists, matches in (file, line, character) and the
candidate's timestamp is less than 250 ms after it; of two inbound
duplicates only the first is applied when their timestamp difference is
below 250 ms, while both are applied when it is at least 250 ms. -/
theorem C1_inbound_time_windowed_suppression :
    (∀ (s : VSCode.ManagerState) (m : CursorPosition),
      VSCode.shouldIgnorePosition s m = true ↔
        ∃ last, s.lastReceivedPosition = some last ∧
          last.line = m.line ∧ last.character = m.character ∧ last.file = m.file ∧
          m.timestamp - last.timestamp < VSCode.positionThreshold) ∧
    (∀ (openOk moveOk : Bool) (t : Int) (s : VSCode.ManagerState) (m : CursorPosition),
      m.source = "jetbrains" → VSCode.shouldIgnorePosition s m = true →
      VSCode.handleCursorUpdate openOk moveOk t s m = (s, none)) ∧
    (∀ (t : Int) (s : VSCode.ManagerState) (m : CursorPosition),
      m.source = "jetbrains" → VSCode.shouldIgnorePosition s m = false →
      (VSCode.handleCursorUpdate true true t s m).2 = some m ∧
      (VSCode.handleCursorUpdate true true t s m).1.lastReceivedPosition = some m) ∧
    (∀ (s : VSCode.ManagerState) (m1 m2 : CursorPosition) (t1 t2 : Int),
      m1.source = "jetbrains" → m2.source = "jetbrains" →
      m2.file = m1.file → m2.line = m1.line → m2.character = m1.character →
      VSCode.shouldIgnorePosition s m1 = false →
      (VSCode.handleCursorUpdate true true t1 s m1).2 = some m1 ∧
      (m2.timestamp - m1.timestamp < VSCode.positionThreshold →
        VSCode.handleCursorUpdate true true t2
            (VSCode.handleCursorUpdate true true t1 s m1).1 m2 =
          ((VSCode.handleCursorUpdate true true t1 s m1).1, none)) ∧
      (VSCode.positionThreshold ≤ m2.timestamp - m1.timestamp →
        (VSCode.handleCursorUpdate true true t2
            (VSCode.handleCursorUpdate true true t1 s m1).1 m2).2 = some m2)) ∧
    (∀ (s : JetBrains.PluginState) (m : CursorPosition),
      JetBrains.isPositionDuplicate s m = true ↔
        ∃ lastPos, s.lastReceivedPosition = some lastPos ∧
          lastPos.line = m.line ∧ lastPos.character = m.character ∧ lastPos.file = m.file ∧
          m.timestamp - lastPos.timestamp < JetBrains.POSITION_THRESHOLD_MS) ∧
    (∀ (hostOk : Bool) (s : JetBrains.PluginState) (m : CursorPosition),
      m.source = "vscode" → JetBrains.isPositionDuplicate s m = true →
      JetBrains.parseAndHandlePosition hostOk s m = (s, none)) ∧
    (∀ (s : JetBrains.PluginState) (m1 m2 : CursorPosition),
      m1.source = "vscode" → m2.source = "vscode" →
      m2.file = m1.file → m2.line = m1.line → m2.character = m1.character →
      JetBrains.isPositionDuplicate s m1 = false →
      (JetBrains.parseAndHandlePosition true s m1).2 = some m1 ∧
      (m2.timestamp - m1.timestamp < JetBrains.POSITION_THRESHOLD_MS →
        JetBrains.parseAndHandlePosition true
            (JetBrains.parseAndHandlePosition true s m1).1 m2 =
          ((JetBrains.parseAndHandlePosition true s m1).1, none)) ∧
      (JetBrains.POSITION_THRESHOLD_MS ≤ m2.timestamp - m1.timestamp →
        (JetBrains.parseAndHandlePosition true
            (JetBrains.parseAndHandlePosition true s m1).1 m2).2 = some m2)) := by
  refine ⟨shouldIgnorePosition_iff, handleCursorUpdate_ignored, ?_, ?_,
    isPositionDuplicate_iff, parseAndHandlePosition_ignored, ?_⟩
  · intro t s m hsrc hig
    rw [handleCursorUpdate_accepted t s m hsrc hig]
    exact ⟨rfl, rfl⟩
  · intro s m1 m2 t1 t2 hsrc1 hsrc2 hf hl hc hig1
    rw [handleCursorUpdate_accepted t1 s m1 hsrc1 hig1]
    have hlast : (VSCode.updateEditorCursor
        { s with lastReceivedPosition := some m1 } t1).lastReceivedPosition = some m1 := rfl
    have hwin := shouldIgnorePosition_same_coords _ m1 m2 hlast hf hl hc
    refine ⟨rfl, ?_, ?_⟩
    · intro hdt
      exact handleCursorUpdate_ignored true true t2 _ m2 hsrc2
        (by rw [hwin]; exact decide_eq_true hdt)
    · intro hdt
      rw [handleCursorUpdate_accepted t2 _ m2 hsrc2
        (by rw [hwin]; simp; omega)]
  · intro s m1 m2 hsrc1 hsrc2 hf hl hc hig1
    rw [parseAndHandlePosition_accepted s m1 hsrc1 hig1]
    have hlast : ({ s with lastReceivedPosition := some m1 } :
        JetBrains.PluginState).lastReceivedPosition = some m1 := rfl
    have hwin := isPositionDuplicate_same_coords _ m1 m2 hlast hf hl hc
    refine ⟨rfl, ?_, ?_⟩
    · intro hdt
      exact parseAndHandlePosition_ignored true _ m2 hsrc2
        (by rw [hwin]; exact decide_eq_true hdt)
    · intro hdt
      rw [parseAndHandlePosition_accepted _ m2 hsrc2
        (by rw [hwin]; simp; omega)]

/-- C1 witness: from a fresh VSCode manager, a first inbound position is
applied, an identical one 100 ms later is suppressed, and an identical
one 300 ms later is applied again. -/
theorem C1_inbound_time_windowed_suppression_witness :
    (VSCode.handleCursorUpdate true true 0 VSCode.initialState
      { file := "a.ts", line := 5, character := 2, source := "jetbrains", timestamp := 1000 }).2 =
      some { file := "a.ts", line := 5, character := 2, source := "jetbrains", timestamp := 1000 } ∧
    VSCode.handleCursorUpdate true true 0
        (VSCode.handleCursorUpdate true true 0 VSCode.initialState
          { file := "a.ts", line := 5, character := 2, source := "jetbrains", timestamp := 1000 }).1
        { file := "a.ts", line := 5, character := 2, source := "jetbrains", timestamp := 1100 } =
      ((VSCode.handleCursorUpdate true true 0 VSCode.initialState
          { file := "a.ts", line := 5, character := 2, source := "jetbrains", timestamp := 1000 }).1, none) ∧
    (VSCode.handleCursorUpdate true true 0
        (VSCode.handleCursorUpdate true true 0 VSCode.initialState
          { file := "a.ts", line := 5, character := 2, source := "jetbrains", timestamp := 1000 }).1
        { file := "a.ts", line := 5, character := 2, source := "jetbrains", timestamp := 1300 }).2 =
      some { file := "a.ts", line := 5, character := 2, source := "jetbrains", timestamp := 1300 } := by
  have h1 := C1_inbound_time_windowed_suppression.2.2.2.1 VSCode.initialState
    { file := "a.ts", line := 5, character := 2, source := "jetbrains", timestamp := 1000 }
    { file := "a.ts", line := 5, character := 2, source := "jetbrains", timestamp := 1100 }
    0 0 rfl rfl rfl rfl rfl (by decide)
  have h2 := C1_inbound_time_windowed_suppression.2.2.2.1 VSCode.initialState
    { file := "a.ts", line := 5, character := 2, source := "jetbrains", timestamp := 1000 }
    { file := "a.ts", line := 5, character := 2, source := "jetbrains", timestamp := 1300 }
    0 0 rfl rfl rfl rfl rfl (by decide)
  exact ⟨h1.1, h1.2.1 (by decide), h2.2.2 (by decide)⟩

/-- Characterization of `shouldSendPosition`: it refuses exactly an
exact coordinate match with the last transmitted position; no field of
time is consulted. -/
theorem shouldSendPosition_eq_false_iff (s : VSCode.ManagerState) (c : CursorPosition) :
    VSCode.shouldSendPosition s c = false ↔
      ∃ last, s.lastSentPosition = some last ∧
        last.line = c.line ∧ last.character = c.character ∧ last.file = c.file := by
  cases h : s.lastSentPosition <;> simp [VSCode.shouldSendPosition, h, and_assoc]

/-- Characterization of `shouldUpdatePosition`: it refuses exactly an
exact coordinate match with the last transmitted position. -/
theorem shouldUpdatePosition_eq_false_iff (s : JetBrains.PluginState) (p : CursorPosition) :
    JetBrains.shouldUpdatePosition s p = false ↔
      ∃ last, s.lastPosition = some last ∧
        last.line = p.line ∧ last.character = p.character ∧ last.file = p.file := by
  cases h : s.lastPosition <;> simp [JetBrains.shouldUpdatePosition, h, and_assoc]

/-- An accepted outbound candidate is emitted and overwrites
`lastSentPosition`. -/
theorem sendCursorPosition_accepted (s : VSCode.ManagerState) (l c : Int)
    (f : String) (now : Int)
    (hg : s.isUpdatingCursor = false) (hcon : s.wsConnection = true)
    (hsf : VSCode.isSourceFile f = true)
    (hs : VSCode.shouldSendPosition s ⟨f, l, c, "vscode", now⟩ = true) :
    VSCode.sendCursorPosition s l c f now =
      ({ s with lastSentPosition := some ⟨f, l, c, "vscode", now⟩ },
        some ⟨f, l, c, "vscode", now⟩) := by
  unfold VSCode.sendCursorPosition
  simp only [hg, hcon, hsf, Bool.not_true, Bool.false_eq_true, if_false]
  simp [hs]

/-- A suppressed outbound candidate leaves the manager untouched. -/
theorem sendCursorPosition_suppressed (s : VSCode.ManagerState) (l c : Int)
    (f : String) (now : Int)
    (hs : VSCode.shouldSendPosition s ⟨f, l, c, "vscode", now⟩ = false) :
    VSCode.sendCursorPosition s l c f now = (s, none) := by
  unfold VSCode.sendCursorPosition
  by_cases hg : s.isUpdatingCursor <;>
    by_cases hcon : s.wsConnection <;>
      by_cases hsf : VSCode.isSourceFile f <;>
        simp [hg, hcon, hsf, hs]

/-- An accepted caret candidate is emitted and overwrites
`lastPosition`. -/
theorem caretPositionChanged_accepted (s : JetBrains.PluginState)
    (f : String) (l c now : Int)
    (hs : JetBrains.shouldUpdatePosition s ⟨f, l, c, "jetbrains", now⟩ = true) :
    JetBrains.caretPositionChanged true s f l c now =
      ({ s with lastPosition := some ⟨f, l, c, "jetbrains", now⟩ },
        some ⟨f, l, c, "jetbrains", now⟩) := by
  unfold JetBrains.caretPositionChanged
  simp [hs]

/-- A suppressed caret candidate leaves the plugin untouched. -/
theorem caretPositionChanged_suppressed (s : JetBrains.PluginState)
    (f : String) (l c now : Int)
    (hs : JetBrains.shouldUpdatePosition s ⟨f, l, c, "jetbrains", now⟩ = false) :
    JetBrains.caretPositionChanged true s f l c now = (s, none) := by
  unfold JetBrains.caretPositionChanged
  simp [hs]

/-- C2: outbound suppression is exact-match with no time window on both
sides — of consecutive accepted-candidate local changes with identical
(file, line, character) only the first is emitted, whatever time
separates them; a candidate differing from `lastSent` in any coordinate
is emitted and becomes the new `lastSent`. -/
theorem C2_outbound_exact_match_no_window :
    (∀ (s : VSCode.ManagerState) (c : CursorPosition),
      VSCode.shouldSendPosition s c = false ↔
        ∃ last, s.lastSentPosition = some last ∧
          last.line = c.line ∧ last.character = c.character ∧ last.file = c.file) ∧
    (∀ (s : VSCode.ManagerState) (l c : Int) (f : String) (now : Int),
      s.isUpdatingCursor = false → s.wsConnection = true → VSCode.isSourceFile f = true →
      VSCode.shouldSendPosition s ⟨f, l, c, "vscode", now⟩ = true →
      VSCode.sendCursorPosition s l c f now =
        ({ s with lastSentPosition := some ⟨f, l, c, "vscode", now⟩ },
          some ⟨f, l, c, "vscode", now⟩)) ∧
    (∀ (s : VSCode.ManagerState) (l c : Int) (f : String) (now1 now2 : Int),
      s.isUpdatingCursor = false → s.wsConnection = true → VSCode.isSourceFile f = true →
      VSCode.shouldSendPosition s ⟨f, l, c, "vscode", now1⟩ = true →
      (VSCode.sendCursorPosition s l c f now1).2 = some ⟨f, l, c, "vscode", now1⟩ ∧
      VSCode.sendCursorPosition (VSCode.sendCursorPosition s l c f now1).1 l c f now2 =
        ((VSCode.sendCursorPosition s l c f now1).1, none)) ∧
    (∀ (s : JetBrains.PluginState) (p : CursorPosition),
      JetBrains.shouldUpdatePosition s p = false ↔
        ∃ last, s.lastPosition = some last ∧
          last.line = p.line ∧ last.character = p.character ∧ last.file = p.file) ∧
    (∀ (s : JetBrains.PluginState) (f : String) (l c now : Int),
      JetBrains.shouldUpdatePosition s ⟨f, l, c, "jetbrains", now⟩ = true →
      JetBrains.caretPositionChanged true s f l c now =
        ({ s with lastPosition := some ⟨f, l, c, "jetbrains", now⟩ },
          some ⟨f, l, c, "jetbrains", now⟩)) ∧
    (∀ (s : JetBrains.PluginState) (f : String) (l c now1 now2 : Int),
      JetBrains.shouldUpdatePosition s ⟨f, l, c, "jetbrains", now1⟩ = true →
      (JetBrains.caretPositionChanged true s f l c now1).2 =
        some ⟨f, l, c, "jetbrains", now1⟩ ∧
      JetBrains.caretPositionChanged true
          (JetBrains.caretPositionChanged true s f l c now1).1 f l c now2 =
        ((JetBrains.caretPositionChanged true s f l c now1).1, none)) := by
  refine ⟨shouldSendPosition_eq_false_iff, sendCursorPosition_accepted, ?_,
    shouldUpdatePosition_eq_false_iff, caretPositionChanged_accepted, ?_⟩
  · intro s l c f now1 now2 hg hcon hsf hs
    rw [sendCursorPosition_accepted s l c f now1 hg hcon hsf hs]
    refine ⟨rfl, ?_⟩
    exact sendCursorPosition_suppressed _ l c f now2
      ((shouldSendPosition_eq_false_iff _ _).2 ⟨_, rfl, rfl, rfl, rfl⟩)
  · intro s f l c now1 now2 hs
    rw [caretPositionChanged_accepted s f l c now1 hs]
    refine ⟨rfl, ?_⟩
    exact caretPositionChanged_suppressed _ f l c now2
      ((shouldUpdatePosition_eq_false_iff _ _).2 ⟨_, rfl, rfl, rfl, rfl⟩)

/-- C2 witness: with a peer connected, a first local move at (5,2) in
a.ts is emitted and an identical one 98999 ms later is not; a JetBrains
caret repeat is likewise suppressed. -/
theorem C2_outbound_exact_match_no_window_witness :
    (VSCode.sendCursorPosition { VSCode.initialState with wsConnection := true }
        5 2 "a.ts" 1000).2 = some ⟨"a.ts", 5, 2, "vscode", 1000⟩ ∧
    VSCode.sendCursorPosition
        (VSCode.sendCursorPosition { VSCode.initialState with wsConnection := true }
          5 2 "a.ts" 1000).1 5 2 "a.ts" 99999 =
      ((VSCode.sendCursorPosition { VSCode.initialState with wsConnection := true }
          5 2 "a.ts" 1000).1, none) ∧
    JetBrains.caretPositionChanged true
        (JetBrains.caretPositionChanged true JetBrains.initialState "a.ts" 5 2 1000).1
        "a.ts" 5 2 99999 =
      ((JetBrains.caretPositionChanged true JetBrains.initialState "a.ts" 5 2 1000).1, none) := by
  have h1 := C2_outbound_exact_match_no_window.2.2.1
    { VSCode.initialState with wsConnection := true } 5 2 "a.ts" 1000 99999
    rfl rfl (by decide) (by decide)
  have h2 := C2_outbound_exact_match_no_window.2.2.2.2.2
    JetBrains.initialState "a.ts" 5 2 1000 99999 (by decide)
  exact ⟨h1.1, h1.2, h2.2⟩

/-- When the host apply fails (document cannot be opened or the caret
move throws), the VSCode manager has already recorded the candidate in
`lastReceivedPosition` and applies nothing. -/
theorem handleCursorUpdate_host_failure (openOk moveOk : Bool) (t : Int)
    (s : VSCode.ManagerState) (m : CursorPosition)
    (hsrc : m.source = "jetbrains") (hig : VSCode.shouldIgnorePosition s m = false)
    (hfail : (openOk && moveOk) = false) :
    (VSCode.handleCursorUpdate openOk moveOk t s m).2 = none ∧
    (VSCode.handleCursorUpdate openOk moveOk t s m).1.lastReceivedPosition = some m := by
  unfold VSCode.handleCursorUpdate
  cases openOk <;> cases moveOk <;>
    simp [hsrc, hig, VSCode.updateEditorCursor] at hfail ⊢

/-- When the host apply fails, the JetBrains plugin has already recorded
the candidate in `lastReceivedPosition` and applies nothing. -/
theorem parseAndHandlePosition_host_failure
    (s : JetBrains.PluginState) (m : CursorPosition)
    (hsrc : m.source = "vscode") (hig : JetBrains.isPositionDuplicate s m = false) :
    (JetBrains.parseAndHandlePosition false s m).2 = none ∧
    (JetBrains.parseAndHandlePosition false s m).1.lastReceivedPosition = some m := by
  unfold JetBrains.parseAndHandlePosition
  simp [hsrc, hig]

/-- C10: on an accepted inbound position, `lastAccepted` is updated
before the host apply is attempted; if opening the document or moving
the caret then fails, `lastAccepted` still holds the failed candidate,
so an identical (file, line, character) arriving within 250 ms is
suppressed even though the earlier position was never applied. -/
theorem C10_lastAccepted_updated_before_host_apply :
    (∀ (openOk moveOk : Bool) (t : Int) (s : VSCode.ManagerState) (m : CursorPosition),
      m.source = "jetbrains" → VSCode.shouldIgnorePosition s m = false →
      (openOk && moveOk) = false →
      (VSCode.handleCursorUpdate openOk moveOk t s m).2 = none ∧
      (VSCode.handleCursorUpdate openOk moveOk t s m).1.lastReceivedPosition = some m) ∧
    (∀ (openOk moveOk : Bool) (t1 t2 : Int) (s : VSCode.ManagerState) (m1 m2 : CursorPosition),
      m1.source = "jetbrains" → m2.source = "jetbrains" →
      m2.file = m1.file → m2.line = m1.line → m2.character = m1.character →
      VSCode.shouldIgnorePosition s m1 = false →
      (openOk && moveOk) = false →
      m2.timestamp - m1.timestamp < VSCode.positionThreshold →
      VSCode.handleCursorUpdate true true t2
          (VSCode.handleCursorUpdate openOk moveOk t1 s m1).1 m2 =
        ((VSCode.handleCursorUpdate openOk moveOk t1 s m1).1, none)) ∧
    (∀ (s : JetBrains.PluginState) (m : CursorPosition),
      m.source = "vscode" → JetBrains.isPositionDuplicate s m = false →
      (JetBrains.parseAndHandlePosition false s m).2 = none ∧
      (JetBrains.parseAndHandlePosition false s m).1.lastReceivedPosition = some m) ∧
    (∀ (s : JetBrains.PluginState) (m1 m2 : CursorPosition),
      m1.source = "vscode" → m2.source = "vscode" →
      m2.file = m1.file → m2.line = m1.line → m2.character = m1.character →
      JetBrains.isPositionDuplicate s m1 = false →
      m2.timestamp - m1.timestamp < JetBrains.POSITION_THRESHOLD_MS →
      JetBrains.parseAndHandlePosition true
          (JetBrains.parseAndHandlePosition false s m1).1 m2 =
        ((JetBrains.parseAndHandlePosition false s m1).1, none)) := by
  refine ⟨handleCursorUpdate_host_failure, ?_, parseAndHandlePosition_host_failure, ?_⟩
  · intro openOk moveOk t1 t2 s m1 m2 hsrc1 hsrc2 hf hl hc hig1 hfail hdt
    have hrec := (handleCursorUpdate_host_failure openOk moveOk t1 s m1 hsrc1 hig1 hfail).2
    exact handleCursorUpdate_ignored true true t2 _ m2 hsrc2
      (by rw [shouldIgnorePosition_same_coords _ m1 m2 hrec hf hl hc]
          exact decide_eq_true hdt)
  · intro s m1 m2 hsrc1 hsrc2 hf hl hc hig1 hdt
    have hrec := (parseAndHandlePosition_host_failure s m1 hsrc1 hig1).2
    exact parseAndHandlePosition_ignored true _ m2 hsrc2
      (by rw [isPositionDuplicate_same_coords _ m1 m2 hrec hf hl hc]
          exact decide_eq_true hdt)

/-- C10 witness: a first inbound position whose document fails to open
is recorded anyway, and an identical position 100 ms later is
suppressed although nothing was applied. -/
theorem C10_lastAccepted_updated_before_host_apply_witness :
    (VSCode.handleCursorUpdate false false 0 VSCode.initialState
      { file := "gone.ts", line := 3, character := 1, source := "jetbrains", timestamp := 1000 }).2 = none ∧
    (VSCode.handleCursorUpdate false false 0 VSCode.initialState
      { file := "gone.ts", line := 3, character := 1, source := "jetbrains", timestamp := 1000 }).1.lastReceivedPosition =
      some { file := "gone.ts", line := 3, character := 1, source := "jetbrains", timestamp := 1000 } ∧
    VSCode.handleCursorUpdate true true 0
        (VSCode.handleCursorUpdate false false 0 VSCode.initialState
          { file := "gone.ts", line := 3, character := 1, source := "jetbrains", timestamp := 1000 }).1
        { file := "gone.ts", line := 3, character := 1, source := "jetbrains", timestamp := 1100 } =
      ((VSCode.handleCursorUpdate false false 0 VSCode.initialState
          { file := "gone.ts", line := 3, character := 1, source := "jetbrains", timestamp := 1000 }).1, none) := by
  have h1 := C10_lastAccepted_updated_before_host_apply.1 false false 0 VSCode.initialState
    { file := "gone.ts", line := 3, character := 1, source := "jetbrains", timestamp := 1000 }
    rfl (by decide) (by decide)
  have h2 := C10_lastAccepted_updated_before_host_apply.2.1 false false 0 0 VSCode.initialState
    { file := "gone.ts", line := 3, character := 1, source := "jetbrains", timestamp := 1000 }
    { file := "gone.ts", line := 3, character := 1, source := "jetbrains", timestamp := 1100 }
    rfl rfl rfl rfl rfl (by decide) (by decide) (by decide)
  exact ⟨h1.1, h1.2, h2⟩

/-- One failed reconnect cycle from a closed state with a pending timer:
the attempt counter grows by one and the next timer is scheduled with
the delay of the new counter value. -/
theorem failedCycle_eq (st : JetBrains.PluginState) (d : Nat)
    (hopen : st.wsOpen = false) (hjob : st.reconnectJob = some d) :
    JetBrains.failedCycle st =
      { st with wsOpen := false
                reconnectAttempt := st.reconnectAttempt + 1
                reconnectJob :=
                  some (JetBrains.calculateReconnectDelay (st.reconnectAttempt + 1)) } := by
  unfold JetBrains.failedCycle JetBrains.reconnectTimerFires
  rw [hjob]
  simp [hopen, JetBrains.handleWebSocketClose, JetBrains.scheduleReconnect]

/-- C7: after every connection close not requested by the local side
exactly one reconnect timer is scheduled, and this repeats indefinitely:
after any number n of further failed cycles the attempt counter has
grown by n — capped only inside the delay computation, never to stop
retrying — and a reconnect is still pending. -/
theorem C7_reconnect_never_stops :
    (∀ s : JetBrains.PluginState,
      (JetBrains.handleWebSocketClose s).reconnectJob =
        some (JetBrains.calculateReconnectDelay s.reconnectAttempt) ∧
      (JetBrains.handleWebSocketClose s).wsOpen = false ∧
      (JetBrains.handleWebSocketClose s).reconnectAttempt = s.reconnectAttempt) ∧
    (∀ (s : JetBrains.PluginState) (n : Nat),
      (JetBrains.failedCycle^[n] (JetBrains.handleWebSocketClose s)).reconnectAttempt =
        s.reconnectAttempt + n ∧
      (JetBrains.failedCycle^[n] (JetBrains.handleWebSocketClose s)).reconnectJob =
        some (JetBrains.calculateReconnectDelay (s.reconnectAttempt + n)) ∧
      (JetBrains.failedCycle^[n] (JetBrains.handleWebSocketClose s)).wsOpen = false) := by
  refine ⟨fun s => ⟨rfl, rfl, rfl⟩, fun s n => ?_⟩
  induction n with
  | zero => exact ⟨rfl, rfl, rfl⟩
  | succ k ih =>
    rw [Function.iterate_succ_apply',
      failedCycle_eq _ _ ih.2.2 ih.2.1]
    refine ⟨?_, ?_, rfl⟩
    · simp [ih.1]
      omega
    · simp only [ih.1]
      rw [Nat.add_assoc]

/-- C9: the suppression window — `lastSent` and `lastAccepted` start
null; `lastSent` is overwritten exactly when an outbound candidate is
accepted for sending, `lastAccepted` exactly when an inbound one is
accepted; connect, disconnect, restart, peer-socket open/close, the
reconnect machinery and the guard timer never mutate either, so the
dedup state survives reconnects. -/
theorem C9_suppression_window_invariant :
    VSCode.initialState.lastSentPosition = none ∧
    VSCode.initialState.lastReceivedPosition = none ∧
    JetBrains.initialState.lastPosition = none ∧
    JetBrains.initialState.lastReceivedPosition = none ∧
    (∀ (s : VSCode.ManagerState) (l c : Int) (f : String) (now : Int),
      ((VSCode.sendCursorPosition s l c f now).2 = none →
        (VSCode.sendCursorPosition s l c f now).1 = s) ∧
      (∀ m, (VSCode.sendCursorPosition s l c f now).2 = some m →
        (VSCode.sendCursorPosition s l c f now).1 = { s with lastSentPosition := some m })) ∧
    (∀ (openOk moveOk : Bool) (t : Int) (s : VSCode.ManagerState) (m : CursorPosition),
      (VSCode.handleCursorUpdate openOk moveOk t s m).1.lastSentPosition = s.lastSentPosition ∧
      (m.source = "jetbrains" → VSCode.shouldIgnorePosition s m = false →
        (VSCode.handleCursorUpdate openOk moveOk t s m).1.lastReceivedPosition = some m) ∧
      (m.source ≠ "jetbrains" ∨ VSCode.shouldIgnorePosition s m = true →
        (VSCode.handleCursorUpdate openOk moveOk t s m).1 = s)) ∧
    (∀ s : VSCode.ManagerState,
      ((VSCode.stepEvent s .connectCmd).lastSentPosition = s.lastSentPosition ∧
        (VSCode.stepEvent s .connectCmd).lastReceivedPosition = s.lastReceivedPosition) ∧
      ((VSCode.stepEvent s .disconnectCmd).lastSentPosition = s.lastSentPosition ∧
        (VSCode.stepEvent s .disconnectCmd).lastReceivedPosition = s.lastReceivedPosition) ∧
      ((VSCode.stepEvent s .restartCmd).lastSentPosition = s.lastSentPosition ∧
        (VSCode.stepEvent s .restartCmd).lastReceivedPosition = s.lastReceivedPosition) ∧
      ((VSCode.stepEvent s .peerConnected).lastSentPosition = s.lastSentPosition ∧
        (VSCode.stepEvent s .peerConnected).lastReceivedPosition = s.lastReceivedPosition) ∧
      ((VSCode.stepEvent s .peerClosed).lastSentPosition = s.lastSentPosition ∧
        (VSCode.stepEvent s .peerClosed).lastReceivedPosition = s.lastReceivedPosition) ∧
      (∀ t : Int,
        (VSCode.stepEvent s (.clearTimer t)).lastSentPosition = s.lastSentPosition ∧
        (VSCode.stepEvent s (.clearTimer t)).lastReceivedPosition = s.lastReceivedPosition)) ∧
    (∀ (focused : Bool) (s : JetBrains.PluginState) (f : String) (l c now : Int),
      ((JetBrains.caretPositionChanged focused s f l c now).2 = none →
        (JetBrains.caretPositionChanged focused s f l c now).1 = s) ∧
      (∀ m, (JetBrains.caretPositionChanged focused s f l c now).2 = some m →
        (JetBrains.caretPositionChanged focused s f l c now).1 =
          { s with lastPosition := some m })) ∧
    (∀ (hostOk : Bool) (s : JetBrains.PluginState) (m : CursorPosition),
      (JetBrains.parseAndHandlePosition hostOk s m).1.lastPosition = s.lastPosition ∧
      (m.source = "vscode" → JetBrains.isPositionDuplicate s m = false →
        (JetBrains.parseAndHandlePosition hostOk s m).1 =
          { s with lastReceivedPosition := some m }) ∧
      (m.source ≠ "vscode" ∨ JetBrains.isPositionDuplicate s m = true →
        (JetBrains.parseAndHandlePosition hostOk s m).1 = s)) ∧
    (∀ s : JetBrains.PluginState,
      ((JetBrains.stepEvent s .socketOpened).lastPosition = s.lastPosition ∧
        (JetBrains.stepEvent s .socketOpened).lastReceivedPosition = s.lastReceivedPosition) ∧
      ((JetBrains.stepEvent s .socketClosed).lastPosition = s.lastPosition ∧
        (JetBrains.stepEvent s .socketClosed).lastReceivedPosition = s.lastReceivedPosition) ∧
      ((JetBrains.stepEvent s .reconnectTimer).lastPosition = s.lastPosition ∧
        (JetBrains.stepEvent s .reconnectTimer).lastReceivedPosition = s.lastReceivedPosition)) := by
  refine ⟨rfl, rfl, rfl, rfl, ?_, ?_, ?_, ?_, ?_, ?_⟩
  · intro s l c f now
    unfold VSCode.sendCursorPosition
    by_cases hg : s.isUpdatingCursor <;> by_cases hcon : s.wsConnection <;>
      by_cases hsf : VSCode.isSourceFile f <;>
        by_cases hs : VSCode.shouldSendPosition s ⟨f, l, c, "vscode", now⟩ <;>
          simp [hg, hcon, hsf, hs]
  · intro openOk moveOk t s m
    refine ⟨?_, ?_, ?_⟩
    · unfold VSCode.handleCursorUpdate
      by_cases hsrc : m.source != "jetbrains" <;>
        by_cases hig : VSCode.shouldIgnorePosition s m <;>
          cases openOk <;> cases moveOk <;>
            simp [hsrc, hig, VSCode.updateEditorCursor]
    · intro hsrc hig
      unfold VSCode.handleCursorUpdate
      cases openOk <;> cases moveOk <;>
        simp [hsrc, hig, VSCode.updateEditorCursor]
    · intro hco
      by_cases hsrc : m.source = "jetbrains"
      · rcases hco with hco | hig
        · exact absurd hsrc hco
        · rw [handleCursorUpdate_ignored openOk moveOk t s m hsrc hig]
      · unfold VSCode.handleCursorUpdate
        simp [bne_iff_ne, hsrc]
  · intro s
    refine ⟨⟨?_, ?_⟩, ⟨?_, ?_⟩, ⟨rfl, rfl⟩, ⟨rfl, rfl⟩, ⟨rfl, rfl⟩, fun t => ⟨?_, ?_⟩⟩
    · simp only [VSCode.stepEvent, VSCode.connect]
      split <;> rfl
    · simp only [VSCode.stepEvent, VSCode.connect]
      split <;> rfl
    · simp only [VSCode.stepEvent, VSCode.disconnect]
      split <;> rfl
    · simp only [VSCode.stepEvent, VSCode.disconnect]
      split <;> rfl
    · simp only [VSCode.stepEvent, VSCode.cursorClearTimerFires]
      split <;> rfl
    · simp only [VSCode.stepEvent, VSCode.cursorClearTimerFires]
      split <;> rfl
  · intro focused s f l c now
    unfold JetBrains.caretPositionChanged
    cases focused <;>
      by_cases hs : JetBrains.shouldUpdatePosition s ⟨f, l, c, "jetbrains", now⟩ <;>
        simp [hs]
  · intro hostOk s m
    refine ⟨?_, ?_, ?_⟩
    · unfold JetBrains.parseAndHandlePosition
      by_cases hsrc : m.source == "vscode" <;>
        by_cases hig : JetBrains.isPositionDuplicate s m <;>
          cases hostOk <;> simp [hsrc, hig]
    · intro hsrc hig
      unfold JetBrains.parseAndHandlePosition
      cases hostOk <;> simp [hsrc, hig]
    · intro hco
      by_cases hsrc : m.source = "vscode"
      · rcases hco with hco | hig
        · exact absurd hsrc hco
        · rw [parseAndHandlePosition_ignored hostOk s m hsrc hig]
      · unfold JetBrains.parseAndHandlePosition
        simp [hsrc]
  · intro s
    refine ⟨⟨rfl, rfl⟩, ⟨rfl, rfl⟩, ?_, ?_⟩
    · simp only [JetBrains.stepEvent, JetBrains.reconnectTimerFires]
      cases hj : s.reconnectJob <;> cases hw : s.wsOpen <;> simp [hj, hw]
    · simp only [JetBrains.stepEvent, JetBrains.reconnectTimerFires]
      cases hj : s.reconnectJob <;> cases hw : s.wsOpen <;> simp [hj, hw]

/-- C9 witness: on a fresh manager an accepted inbound position
overwrites `lastAccepted`, and a connect command leaves both window
fields unchanged. -/
theorem C9_suppression_window_invariant_witness :
    (VSCode.handleCursorUpdate true true 0 VSCode.initialState
      { file := "a.ts", line := 7, character := 0, source := "jetbrains", timestamp := 42 }).1.lastReceivedPosition =
      some { file := "a.ts", line := 7, character := 0, source := "jetbrains", timestamp := 42 } ∧
    (VSCode.stepEvent VSCode.initialState .connectCmd).lastSentPosition = none :=
  ⟨(C9_suppression_window_invariant.2.2.2.2.2.1 true true 0 VSCode.initialState
      { file := "a.ts", line := 7, character := 0, source := "jetbrains", timestamp := 42 }).2.1
      rfl (by decide),
    (C9_suppression_window_invariant.2.2.2.2.2.2.1 VSCode.initialState).1.1⟩

/-- C4 counterexample: the JetBrains side has no re-entrancy guard.
From a fresh plugin with the window focused, applying the accepted
remote position (a.ts, 5, 2) makes the programmatic caret move fire the
plugin's own caret listener, which emits an outbound message — applying
a remote position itself produced an outbound message. -/
theorem C4_no_guard_on_jetbrains_counterexample :
    (JetBrains.applyRemoteWithEcho true true 1001 JetBrains.initialState
      { file := "a.ts", line := 5, character := 2, source := "vscode", timestamp := 1000 }).2.2 =
      some { file := "a.ts", line := 5, character := 2, source := "jetbrains", timestamp := 1001 } := by
  rfl

/-- C4 (amended): only the VSCode side has the claimed re-entrancy
guard: a local caret event observed while `isUpdatingCursor` is set is
dropped before the outbound suppression policy runs (nothing sent,
manager unchanged); the remote apply sets the guard and schedules its
release exactly 100 ms after the move completes, and nothing but the
timer firing at that scheduled instant clears it.  The JetBrains side
has no guard: the echo caret event of an applied remote position is
emitted whenever the window is focused and the coordinates differ from
`lastPosition`. -/
theorem C4_reentrancy_guard_vscode_only :
    (∀ (s : VSCode.ManagerState) (l c : Int) (f : String) (now : Int),
      s.isUpdatingCursor = true →
      VSCode.sendCursorPosition s l c f now = (s, none)) ∧
    (∀ (s : VSCode.ManagerState) (t : Int),
      (VSCode.updateEditorCursor s t).isUpdatingCursor = true ∧
      (VSCode.updateEditorCursor s t).cursorClearAt = some (t + 100)) ∧
    (∀ (s : VSCode.ManagerState) (t u : Int),
      (VSCode.cursorClearTimerFires (VSCode.updateEditorCursor s t) u).isUpdatingCursor = false →
      u = t + 100) ∧
    (∀ (s : JetBrains.PluginState) (m : CursorPosition) (echoNow : Int),
      m.source = "vscode" → JetBrains.isPositionDuplicate s m = false →
      JetBrains.shouldUpdatePosition s
        { file := m.file, line := m.line, character := m.character,
          source := "jetbrains", timestamp := echoNow } = true →
      (JetBrains.applyRemoteWithEcho true true echoNow s m).2.2 =
        some { file := m.file, line := m.line, character := m.character,
               source := "jetbrains", timestamp := echoNow }) := by
  refine ⟨?_, fun s t => ⟨rfl, rfl⟩, ?_, ?_⟩
  · intro s l c f now h
    unfold VSCode.sendCursorPosition
    simp [h]
  · intro s t u h
    by_cases he : t + 100 = u
    · omega
    · exfalso
      have hne : VSCode.cursorClearTimerFires (VSCode.updateEditorCursor s t) u =
          VSCode.updateEditorCursor s t := by
        unfold VSCode.cursorClearTimerFires VSCode.updateEditorCursor
        simp [he]
      rw [hne] at h
      simp [VSCode.updateEditorCursor] at h
  · intro s m echoNow hsrc hig hsu
    have hres := parseAndHandlePosition_accepted s m hsrc hig
    have hsu1 : JetBrains.shouldUpdatePosition
        { s with lastReceivedPosition := some m }
        { file := m.file, line := m.line, character := m.character,
          source := "jetbrains", timestamp := echoNow } = true := hsu
    unfold JetBrains.applyRemoteWithEcho
    rw [hres]
    dsimp only
    rw [caretPositionChanged_accepted _ m.file m.line m.character echoNow hsu1]

/-- C4 witness: a local caret event at (5,2) in a.ts while the guard is
set and a peer is connected is dropped with no state change. -/
theorem C4_reentrancy_guard_vscode_only_witness :
    VSCode.sendCursorPosition
        { VSCode.initialState with isUpdatingCursor := true, wsConnection := true }
        5 2 "a.ts" 1000 =
      ({ VSCode.initialState with isUpdatingCursor := true, wsConnection := true }, none) :=
  C4_reentrancy_guard_vscode_only.1 _ 5 2 "a.ts" 1000 rfl

/-- One lifecycle step preserves the manually-disconnected idle
configuration, for every event other than a fresh connect request. -/
theorem lifecycle_step_preserves_idle (l : Lifecycle.State) (e : Lifecycle.Event)
    (hne : e ≠ Lifecycle.Event.connectRequest)
    (h1 : l.phase = Lifecycle.Phase.Idle) (h2 : l.pendingReconnect = none)
    (h3 : l.isManuallyDisconnect = true) :
    (Lifecycle.step l e).phase = Lifecycle.Phase.Idle ∧
    (Lifecycle.step l e).pendingReconnect = none ∧
    (Lifecycle.step l e).isManuallyDisconnect = true := by
  cases e with
  | connectRequest => exact absurd rfl hne
  | transportOpened => simp [Lifecycle.step, h1, h2, h3]
  | transportClosed => simp [Lifecycle.step, h1, h2, h3]
  | reconnectTimer => simp [Lifecycle.step, h1, h2, h3]
  | disconnectRequest => exact ⟨rfl, rfl, rfl⟩

/-- C6: an explicit disconnect from any state cancels any pending
reconnect timer and leaves the lifecycle Idle; the manual-close flag
prevents the unexpected-drop path from ever scheduling or firing a
reconnect afterwards — under any following event sequence without a
fresh connect request the lifecycle stays Idle with no pending timer.
On the VSCode side, `disconnect` closes the tracked peer socket and the
server. -/
theorem C6_manual_disconnect_is_terminal :
    (∀ l : Lifecycle.State,
      (Lifecycle.disconnect l).phase = Lifecycle.Phase.Idle ∧
      (Lifecycle.disconnect l).pendingReconnect = none) ∧
    (∀ (l : Lifecycle.State) (es : List Lifecycle.Event),
      Lifecycle.Event.connectRequest ∉ es →
      (es.foldl Lifecycle.step (Lifecycle.disconnect l)).phase = Lifecycle.Phase.Idle ∧
      (es.foldl Lifecycle.step (Lifecycle.disconnect l)).pendingReconnect = none) ∧
    (∀ s : VSCode.ManagerState, s.wsServer = true →
      (VSCode.disconnect s).wsServer = false ∧ (VSCode.disconnect s).wsConnection = false) := by
  refine ⟨fun l => ⟨rfl, rfl⟩, ?_, ?_⟩
  · intro l es hno
    have hgen : ∀ (es : List Lifecycle.Event) (l0 : Lifecycle.State),
        Lifecycle.Event.connectRequest ∉ es →
        l0.phase = Lifecycle.Phase.Idle → l0.pendingReconnect = none →
        l0.isManuallyDisconnect = true →
        (es.foldl Lifecycle.step l0).phase = Lifecycle.Phase.Idle ∧
        (es.foldl Lifecycle.step l0).pendingReconnect = none ∧
        (es.foldl Lifecycle.step l0).isManuallyDisconnect = true := by
      intro es
      induction es with
      | nil => exact fun l0 _ h1 h2 h3 => ⟨h1, h2, h3⟩
      | cons e rest ih =>
        intro l0 hmem h1 h2 h3
        have hne : e ≠ Lifecycle.Event.connectRequest := fun he => hmem (by simp [he])
        have hstep := lifecycle_step_preserves_idle l0 e hne h1 h2 h3
        exact ih _ (fun hm => hmem (List.mem_cons_of_mem _ hm))
          hstep.1 hstep.2.1 hstep.2.2
    have h := hgen es (Lifecycle.disconnect l) hno rfl rfl rfl
    exact ⟨h.1, h.2.1⟩
  · intro s hs
    unfold VSCode.disconnect
    simp [hs]

/-- C6 witness: disconnecting while in Connecting(2) with a pending
timer yields Idle with no pending timer, and a following unexpected
close plus timer fire leave it Idle with no pending timer. -/
theorem C6_manual_disconnect_is_terminal_witness :
    ([Lifecycle.Event.transportClosed, Lifecycle.Event.reconnectTimer].foldl
        Lifecycle.step
        (Lifecycle.disconnect
          { phase := Lifecycle.Phase.Connecting, attempt := 2,
            pendingReconnect := some 4000, isManuallyDisconnect := false })).phase =
      Lifecycle.Phase.Idle ∧
    ([Lifecycle.Event.transportClosed, Lifecycle.Event.reconnectTimer].foldl
        Lifecycle.step
        (Lifecycle.disconnect
          { phase := Lifecycle.Phase.Connecting, attempt := 2,
            pendingReconnect := some 4000, isManuallyDisconnect := false })).pendingReconnect =
      none :=
  C6_manual_disconnect_is_terminal.2.1
    { phase := Lifecycle.Phase.Connecting, attempt := 2,
      pendingReconnect := some 4000, isManuallyDisconnect := false }
    [Lifecycle.Event.transportClosed, Lifecycle.Event.reconnectTimer] (by decide)

/-- C8 counterexample: a syntactically valid inbound message with a
required field missing (no `file`) but `source: "jetbrains"` is NOT
dropped without state change — `JSON.parse` does not fail on missing
fields, so the handler records it and the suppression state mutates. -/
theorem C8_missing_field_mutates_state_counterexample :
    (VSCode.handleIncomingMessageRaw (fun _ => true)
        { lastReceivedPosition := none, wsConnection := true, wsServer := true }
        (VSCode.RawMessage.parsed
          { file := none, line := some 5, character := some 2,
            source := some "jetbrains", timestamp := some 1000 })).1.lastReceivedPosition ≠
      none := by
  decide

/-- C8 (amended): a syntactically malformed inbound message — one the
JSON parser throws on — is logged and dropped on both sides without
crashing, without mutating the suppression state and without touching
the connection state.  But a missing required field does not make a
message malformed: a syntactically valid message is dropped unprocessed
only when its source field is absent or not the peer label; when source
is the peer label it is processed, overwriting `lastAccepted` even with
other required fields missing (the connection state is still never
touched). -/
theorem C8_malformed_messages_dropped :
    (∀ (openOk : String → Bool) (st : VSCode.RawInboundState),
      VSCode.handleIncomingMessageRaw openOk st VSCode.RawMessage.invalid = (st, none)) ∧
    (∀ (hostOk : Bool) (s : JetBrains.PluginState),
      JetBrains.handleWebSocketMessage hostOk s JetBrains.ParsedMessage.malformed = (s, none)) ∧
    (∀ (openOk : String → Bool) (st : VSCode.RawInboundState) (d : VSCode.RawCursorData),
      d.source ≠ some "jetbrains" →
      VSCode.handleIncomingMessageRaw openOk st (VSCode.RawMessage.parsed d) = (st, none)) ∧
    (∀ (openOk : String → Bool) (st : VSCode.RawInboundState) (d : VSCode.RawCursorData),
      d.source = some "jetbrains" → VSCode.shouldIgnorePositionRaw st d = false →
      (VSCode.handleIncomingMessageRaw openOk st (VSCode.RawMessage.parsed d)).1.lastReceivedPosition = some d ∧
      (VSCode.handleIncomingMessageRaw openOk st (VSCode.RawMessage.parsed d)).1.wsConnection = st.wsConnection ∧
      (VSCode.handleIncomingMessageRaw openOk st (VSCode.RawMessage.parsed d)).1.wsServer = st.wsServer) := by
  refine ⟨fun openOk st => rfl, fun hostOk s => rfl, ?_, ?_⟩
  · intro openOk st d h
    unfold VSCode.handleIncomingMessageRaw
    simp [bne_iff_ne, h]
  · intro openOk st d hsrc hig
    unfold VSCode.handleIncomingMessageRaw
    rcases hf : d.file with _ | f
    · simp [hsrc, hig, hf]
    · by_cases ho : openOk f <;> simp [hsrc, hig, hf, ho]

/-- C8 witness: a parse failure leaves the manager untouched, and a
message with no source field is dropped unprocessed. -/
theorem C8_malformed_messages_dropped_witness :
    VSCode.handleIncomingMessageRaw (fun _ => true)
        { lastReceivedPosition := none, wsConnection := true, wsServer := true }
        (VSCode.RawMessage.parsed
          { file := some "a.ts", line := some 1, character := some 2,
            source := none, timestamp := some 5 }) =
      ({ lastReceivedPosition := none, wsConnection := true, wsServer := true }, none) :=
  C8_malformed_messages_dropped.2.2.1 (fun _ => true)
    { lastReceivedPosition := none, wsConnection := true, wsServer := true }
    { file := some "a.ts", line := some 1, character := some 2,
      source := none, timestamp := some 5 } (by decide)
